import Mathlib

/-!
Shallow embedding of `src/include/DependencyInjection.hpp` (namespace
`DependencyInjection`): a minimal dependency-injection container with a
registration builder (`ServiceCollection`), a built resolver
(`ServiceProvider`), and a fueled resolution interpreter mirroring
`ServiceProvider::GetService`.

Modelling choices:
* `std::type_index` / `std::type_info` identities become `TypeId := Nat`
  (an opaque comparable identity, used only as a lookup key).
* `std::any` becomes `AnyVal := Option Obj`: `none` is the empty carrier
  returned for an unregistered type, `some o` carries a value `o` stamped
  with the concrete `TypeId` it holds (`o.typeId`) and a payload that also
  serves as an identity stamp (`o.stamp`), so that "identity-equal" is
  expressible.
* `ServiceFactory` (`std::function<std::any(IServiceProvider&)>`) is
  defunctionalized into a small closed AST: a constant factory, a counting
  factory (increments an external counter cell each time it constructs and
  stamps the produced value with the new count), and a factory that
  recursively resolves another type through the provider it receives.
  The interpreter threads the counter store and passes the provider itself
  to the factory, exactly as `factory(*this)` does in the source.
* Resolution may recurse without bound (the source has no cycle
  detection), so the interpreter takes fuel; `none` marks fuel exhaustion
  (divergence), `some` a returned value.  The registry lookup happens
  before any fuel is consumed, as in the source, where the not-found path
  returns `{}` without invoking anything.
-/

namespace DependencyInjection

/-- Opaque comparable identity for `std::type_index`. -/
abbrev TypeId := Nat

/-- Counter cells backing the user-supplied counting factories of the
spec scenarios (a counting factory increments its cell each time it
actually constructs). -/
abbrev Counters := List Nat

/-- A concrete value held by the erased `std::any` carrier: the `typeId`
of the concrete type stored, plus a payload doubling as identity stamp. -/
structure Obj where
  typeId : TypeId
  stamp : Nat
  deriving DecidableEq

/-- The erased carrier `std::any`: `none` is an empty `std::any`. -/
abbrev AnyVal := Option Obj

/-- `ServiceLifetime` from the source (`Scoped` is commented out there). -/
inductive ServiceLifetime where
  | Singleton
  | Transient
  deriving DecidableEq

/-- Defunctionalized `ServiceFactory`
(`std::function<std::any(IServiceProvider&)>`): the closure shapes the
spec's scenarios need. `pureVal v` always returns `v`; `count cid tid`
increments counter cell `cid` and returns a value of type `tid` stamped
with the new count; `resolve dep` calls back into the provider it is
handed to resolve `dep` and returns that result. -/
inductive ServiceFactory where
  | pureVal (v : Obj)
  | count (cid : Nat) (tid : TypeId)
  | resolve (dep : TypeId)
  deriving DecidableEq

/-- `ServiceDescriptor`: the immutable (type, factory, lifetime) triple. -/
structure ServiceDescriptor where
  typeInfo : TypeId
  factory : ServiceFactory
  lifetime : ServiceLifetime
  deriving DecidableEq

/-- `ServiceDescriptor::GetTypeInfo`. -/
def ServiceDescriptor.GetTypeInfo (d : ServiceDescriptor) : TypeId := d.typeInfo

/-- `ServiceDescriptor::GetFactory`. -/
def ServiceDescriptor.GetFactory (d : ServiceDescriptor) : ServiceFactory := d.factory

/-- `ServiceDescriptor::GetLifetime`. -/
def ServiceDescriptor.GetLifetime (d : ServiceDescriptor) : ServiceLifetime := d.lifetime

/-- The registry mapping `std::map<std::type_index, std::vector<ServiceDescriptor>>`,
modelled as an association list with unique keys (lookup semantics agree
with the ordered map's). -/
abbrev ServicesMap := List (TypeId × List ServiceDescriptor)

/-- Lookup of a type's bucket: `_services.find(type)`. -/
def findBucket (m : ServicesMap) (t : TypeId) : Option (List ServiceDescriptor) :=
  (m.find? (fun e => e.1 == t)).map (fun e => e.2)

/-- One step of the `ServiceProvider` constructor's loop body: if the
type already has a bucket, `push_back` the descriptor onto it, otherwise
insert a fresh singleton bucket for it. -/
def insertDescriptor (m : ServicesMap) (d : ServiceDescriptor) : ServicesMap :=
  if m.any (fun e => e.1 == d.typeInfo) then
    m.map (fun e => if e.1 == d.typeInfo then (e.1, e.2 ++ [d]) else e)
  else
    m ++ [(d.typeInfo, [d])]

/-- The `ServiceProvider::ServiceProvider(descriptors)` constructor body:
iterate the descriptor list in reverse (`std::ranges::reverse_view`) and
insert each descriptor into its type's bucket. -/
def mkServices (descriptors : List ServiceDescriptor) : ServicesMap :=
  descriptors.reverse.foldl insertDescriptor []

/-- `ServiceProvider`: holds the `_services` registry built at
construction. -/
structure ServiceProvider where
  services : ServicesMap
  deriving DecidableEq

/-- Building a provider from a descriptor list (the private constructor). -/
def ServiceProvider.ofDescriptors (descriptors : List ServiceDescriptor) : ServiceProvider :=
  ⟨mkServices descriptors⟩

/-- `ServiceProvider::GetService(const std::type_info&)`, fueled.  The
source looks the type up in `_services`; if absent it returns an empty
`std::any` (before consuming any fuel, since no factory runs); otherwise
it takes the bucket's entry at index 0 and invokes its factory, passing
`*this` — here, the same provider — which costs one unit of fuel.  `none`
is fuel exhaustion (unbounded recursion in the source); the unreachable
empty-bucket case (out-of-bounds `descriptorList[0]`) is also mapped to
`none`. -/
def ServiceProvider.GetService (sp : ServiceProvider) :
    Nat → TypeId → Counters → Option (AnyVal × Counters)
  | 0, t, cs =>
    match findBucket sp.services t with
    | none => some (none, cs)
    | some _ => none
  | fuel + 1, t, cs =>
    match findBucket sp.services t with
    | none => some (none, cs)
    | some [] => none
    | some (d :: _) =>
      match d.factory with
      | .pureVal v => some (some v, cs)
      | .count cid tid =>
        some (some ⟨tid, cs.getD cid 0 + 1⟩, cs.set cid (cs.getD cid 0 + 1))
      | .resolve dep => sp.GetService fuel dep cs

/-- The semantics of invoking one factory with the provider passed as
argument (`factory(*this)`), at a given remaining fuel. -/
def runFactory (sp : ServiceProvider) (fuel : Nat) :
    ServiceFactory → Counters → Option (AnyVal × Counters)
  | .pureVal v, cs => some (some v, cs)
  | .count cid tid, cs =>
    some (some ⟨tid, cs.getD cid 0 + 1⟩, cs.set cid (cs.getD cid 0 + 1))
  | .resolve dep, cs => sp.GetService fuel dep cs

/-- `std::any_cast<T>(service)`: throws `std::bad_any_cast` (modelled as
`Except.error ()`) when the carrier is empty or holds a value whose
concrete type is not exactly `T`; otherwise returns the stored value. -/
def any_cast (T : TypeId) : AnyVal → Except Unit Obj
  | none => .error ()
  | some o => if o.typeId = T then .ok o else .error ()

/-- The typed accessor `ServiceProvider::GetService<T>()`: call the
erased accessor, then `std::any_cast<T>` the result. -/
def ServiceProvider.GetServiceTyped (sp : ServiceProvider) (fuel : Nat) (T : TypeId)
    (cs : Counters) : Option (Except Unit Obj × Counters) :=
  (sp.GetService fuel T cs).map (fun r => (any_cast T r.1, r.2))

/-- `ServiceCollection`: the append-only builder holding `_descriptors`. -/
structure ServiceCollection where
  descriptors : List ServiceDescriptor
  deriving DecidableEq

/-- `ServiceCollection::Add`: `push_back` one descriptor. -/
def ServiceCollection.Add (c : ServiceCollection) (d : ServiceDescriptor) : ServiceCollection :=
  ⟨c.descriptors ++ [d]⟩

/-- `ServiceCollection::AddSingleton(factory)`: register the supplied
factory as-is under lifetime `Singleton`. -/
def ServiceCollection.AddSingleton (c : ServiceCollection) (t : TypeId)
    (f : ServiceFactory) : ServiceCollection :=
  c.Add ⟨t, f, .Singleton⟩

/-- `ServiceCollection::AddTransient(factory)`: register the supplied
factory as-is under lifetime `Transient`. -/
def ServiceCollection.AddTransient (c : ServiceCollection) (t : TypeId)
    (f : ServiceFactory) : ServiceCollection :=
  c.Add ⟨t, f, .Transient⟩

/-- `ServiceCollection::BuildServiceProvider`: hand the provider
constructor a copy of the current descriptor list. -/
def ServiceCollection.BuildServiceProvider (c : ServiceCollection) : ServiceProvider :=
  ServiceProvider.ofDescriptors c.descriptors

/-! ### Registry lemmas: the bucket of a built provider is the reversed
filter of the registration list -/

/-- Appending a descriptor to one key's bucket commutes with `find?`
because the update preserves every entry's key. -/
theorem find?_bucketUpdate (m : ServicesMap) (u t : TypeId) (d : ServiceDescriptor) :
    (m.map (fun e => if e.1 == u then (e.1, e.2 ++ [d]) else e)).find? (fun e => e.1 == t) =
      (m.find? (fun e => e.1 == t)).map (fun e => if e.1 == u then (e.1, e.2 ++ [d]) else e) := by
  induction m with
  | nil => rfl
  | cons e es ih =>
    have h1 : ((if e.1 == u then (e.1, e.2 ++ [d]) else e) :
        TypeId × List ServiceDescriptor).1 = e.1 := by
      split <;> rfl
    by_cases hpe : (e.1 == t) = true
    · rw [List.map_cons, List.find?_cons_of_pos _ (by rw [h1]; exact hpe),
        @List.find?_cons_of_pos _ (fun e => e.1 == t) e es hpe, Option.map_some']
    · rw [List.map_cons, List.find?_cons_of_neg _ (by rw [h1]; exact hpe),
        @List.find?_cons_of_neg _ (fun e => e.1 == t) e es hpe, ih]

/-- Effect of one constructor-loop step on a bucket lookup. -/
theorem findBucket_insertDescriptor (m : ServicesMap) (d : ServiceDescriptor) (t : TypeId) :
    findBucket (insertDescriptor m d) t =
      if d.typeInfo = t then some ((findBucket m t).getD [] ++ [d]) else findBucket m t := by
  unfold insertDescriptor findBucket
  by_cases hc : m.any (fun e => e.1 == d.typeInfo) = true
  · rw [if_pos hc, find?_bucketUpdate]
    cases hf : m.find? (fun e => e.1 == t) with
    | none =>
      have hne : d.typeInfo ≠ t := by
        intro hdt
        rcases List.any_eq_true.mp hc with ⟨e, he, hpe⟩
        exact (List.find?_eq_none.mp hf e he) (by simpa [hdt] using hpe)
      simp [hne]
    | some e =>
      have het : e.1 = t := by simpa using List.find?_some hf
      by_cases hdt : d.typeInfo = t
      · rw [if_pos hdt, Option.map_some', Option.map_some']
        have hb : (e.1 == d.typeInfo) = true := by simp [het, hdt]
        simp [hb]
      · rw [if_neg hdt, Option.map_some', Option.map_some']
        have hb : (e.1 == d.typeInfo) = false := by
          simp only [beq_eq_false_iff_ne, ne_eq, het]
          exact fun h => hdt h.symm
        simp [hb]
  · rw [if_neg hc]
    have hfind : m.find? (fun e => e.1 == d.typeInfo) = none := by
      rw [List.find?_eq_none]
      intro x hx hpx
      exact hc (List.any_eq_true.mpr ⟨x, hx, hpx⟩)
    rw [List.find?_append]
    by_cases hdt : d.typeInfo = t
    · subst hdt
      rw [hfind]
      simp [List.find?_cons]
    · rw [if_neg hdt]
      have h2 : List.find? (fun e => e.1 == t) [(d.typeInfo, [d])] = none := by
        rw [List.find?_cons_of_neg]
        · rfl
        · simp [hdt]
      rw [h2]
      cases m.find? (fun e => e.1 == t) <;> simp

/-- Joining a starting bucket with the descriptors a fold appends to it. -/
def joinB : Option (List ServiceDescriptor) → List ServiceDescriptor → Option (List ServiceDescriptor)
  | some b, f => some (b ++ f)
  | none, [] => none
  | none, d :: f => some (d :: f)

/-- The constructor loop appends each matching descriptor, in iteration
order, to the type's bucket. -/
theorem findBucket_foldl (l : List ServiceDescriptor) :
    ∀ (m : ServicesMap) (t : TypeId),
      findBucket (l.foldl insertDescriptor m) t =
        joinB (findBucket m t) (l.filter (fun d => d.typeInfo == t)) := by
  induction l with
  | nil =>
    intro m t
    cases h : findBucket m t <;> simp [joinB, h]
  | cons d l ih =>
    intro m t
    rw [List.foldl_cons, ih, findBucket_insertDescriptor]
    by_cases hd : d.typeInfo = t
    · rw [if_pos hd]
      cases h : findBucket m t <;> simp [joinB, hd, h]
    · rw [if_neg hd]
      simp [joinB, hd]

/-- The bucket of a built provider for type `t` is exactly the reverse of
the registration list filtered to `t` (absent when that filter is empty). -/
theorem findBucket_mkServices (ds : List ServiceDescriptor) (t : TypeId) :
    findBucket (mkServices ds) t =
      joinB none ((ds.filter (fun d => d.typeInfo == t)).reverse) := by
  unfold mkServices
  rw [findBucket_foldl]
  simp [findBucket, List.filter_reverse]

/-- No registration for `t` means no bucket for `t`. -/
theorem findBucket_mkServices_of_not_registered (ds : List ServiceDescriptor) (t : TypeId)
    (h : ds.filter (fun d => d.typeInfo == t) = []) :
    findBucket (mkServices ds) t = none := by
  rw [findBucket_mkServices, h]
  rfl

/-- A present bucket is the reversed filter, hence nonempty. -/
theorem findBucket_mkServices_eq_reverse (ds : List ServiceDescriptor) (t : TypeId)
    (h : ds.filter (fun d => d.typeInfo == t) ≠ []) :
    findBucket (mkServices ds) t = some (ds.filter (fun d => d.typeInfo == t)).reverse := by
  rw [findBucket_mkServices]
  cases hf : (ds.filter (fun d => d.typeInfo == t)).reverse with
  | nil => exact absurd (by simpa using hf) h
  | cons d l => rfl

/-- Unfolding `GetService` at positive fuel: look the bucket up, take its
entry 0, run that entry's factory on the provider itself. -/
theorem GetService_succ (sp : ServiceProvider) (fuel : Nat) (t : TypeId) (cs : Counters) :
    sp.GetService (fuel + 1) t cs =
      match findBucket sp.services t with
      | none => some (none, cs)
      | some [] => none
      | some (d :: _) => runFactory sp fuel d.factory cs := by
  cases h : findBucket sp.services t with
  | none => simp [ServiceProvider.GetService, h]
  | some b =>
    cases b with
    | nil => simp [ServiceProvider.GetService, h]
    | cons d r =>
      cases hf : d.factory <;>
        simp [ServiceProvider.GetService, runFactory, h, hf]

/-! ### Operational model: a session interleaving builder mutation,
builds, and resolutions -/

/-- A session state: the (mutable) builder, every provider built so far,
and the counter cells backing counting factories. -/
structure World where
  collection : ServiceCollection
  built : List ServiceProvider
  counters : Counters
  deriving DecidableEq

/-- The operations a caller can perform: mutate the builder
(`ServiceCollection::Add`), build a provider
(`ServiceCollection::BuildServiceProvider`), or resolve a type through a
previously built provider (`ServiceProvider::GetService`). -/
inductive Op where
  | add (d : ServiceDescriptor)
  | build
  | resolve (i : Nat) (fuel : Nat) (t : TypeId)
  deriving DecidableEq

/-- One operation's effect on the session state.  Resolution can update
only the counter cells (factory-closure state); it never touches the
builder or any built provider, because `GetService` only reads
`_services`. -/
def step (w : World) : Op → World
  | .add d => { w with collection := w.collection.Add d }
  | .build => { w with built := w.built ++ [w.collection.BuildServiceProvider] }
  | .resolve i fuel t =>
    match w.built[i]? with
    | none => w
    | some sp =>
      match sp.GetService fuel t w.counters with
      | none => w
      | some r => { w with counters := r.2 }

/-- Running a whole operation sequence. -/
def runOps (w : World) (ops : List Op) : World :=
  ops.foldl step w

/-- A resolve step never changes the list of built providers. -/
theorem step_resolve_built (w : World) (i fuel : Nat) (t : TypeId) :
    (step w (.resolve i fuel t)).built = w.built := by
  simp only [step]
  cases w.built[i]? with
  | none => rfl
  | some sp =>
    show (match sp.GetService fuel t w.counters with
      | none => w
      | some r => { w with counters := r.2 }).built = w.built
    cases sp.GetService fuel t w.counters with
    | none => rfl
    | some r => rfl

/-- An index that resolves to a built provider keeps resolving to that
same provider after any single further operation. -/
theorem step_built_frame (w : World) (op : Op) (i : Nat) (sp : ServiceProvider)
    (h : w.built[i]? = some sp) : (step w op).built[i]? = some sp := by
  cases op with
  | add d => exact h
  | build =>
    have hi : i < w.built.length := by
      by_contra hlt
      rw [List.getElem?_eq_none (by omega)] at h
      exact Option.noConfusion h
    show (w.built ++ [w.collection.BuildServiceProvider])[i]? = some sp
    rw [List.getElem?_append, if_pos hi, h]
  | resolve j fuel t => rw [step_resolve_built]; exact h

/-- An index that resolves to a built provider keeps resolving to that
same provider across any further operation sequence. -/
theorem runOps_built_frame (ops : List Op) :
    ∀ (w : World) (i : Nat) (sp : ServiceProvider),
      w.built[i]? = some sp → (runOps w ops).built[i]? = some sp := by
  induction ops with
  | nil => intro w i sp h; exact h
  | cons op ops ih =>
    intro w i sp h
    exact ih (step w op) i sp (step_built_frame w op i sp h)

/-- Updating a counter cell in range makes `getD` read the new value. -/
theorem getD_set_self (cs : Counters) (i v : Nat) (h : i < cs.length) :
    (cs.set i v).getD i 0 = v := by
  simp [List.getD_eq_getElem?_getD, h]

/-- Unfolding `GetService` at fuel zero. -/
theorem GetService_zero (sp : ServiceProvider) (t : TypeId) (cs : Counters) :
    sp.GetService 0 t cs =
      match findBucket sp.services t with
      | none => some (none, cs)
      | some _ => none := by
  cases h : findBucket sp.services t <;> simp [ServiceProvider.GetService, h]

/-- The bucket a built provider holds for `t`, phrased on the builder. -/
theorem findBucket_build (c : ServiceCollection) (t : TypeId) :
    findBucket c.BuildServiceProvider.services t =
      joinB none ((c.descriptors.filter (fun d => d.typeInfo == t)).reverse) :=
  findBucket_mkServices c.descriptors t

/-- Resolving a type with no registration returns the empty carrier and
leaves the counter state untouched, at every fuel. -/
theorem getService_of_unregistered (c : ServiceCollection) (t : TypeId)
    (h : c.descriptors.filter (fun d => d.typeInfo == t) = [])
    (fuel : Nat) (cs : Counters) :
    c.BuildServiceProvider.GetService fuel t cs = some (none, cs) := by
  have hb : findBucket c.BuildServiceProvider.services t = none := by
    rw [findBucket_build, h]
    rfl
  cases fuel with
  | zero => rw [GetService_zero, hb]
  | succ f => rw [GetService_succ, hb]

/-- Replace a descriptor's lifetime tag, keeping type and factory. -/
def relabel (g : ServiceDescriptor → ServiceLifetime) (d : ServiceDescriptor) :
    ServiceDescriptor :=
  ⟨d.typeInfo, d.factory, g d⟩

/-- Filtering by type commutes with lifetime relabelling. -/
theorem filter_relabel (ds : List ServiceDescriptor) (g : ServiceDescriptor → ServiceLifetime)
    (t : TypeId) :
    (ds.map (relabel g)).filter (fun d => d.typeInfo == t) =
      (ds.filter (fun d => d.typeInfo == t)).map (relabel g) := by
  rw [List.filter_map]
  congr 1

/-- `GetService` never reads the lifetime tag: relabelling every
registration's lifetime arbitrarily leaves resolution unchanged, at every
fuel, type and counter state. -/
theorem GetService_relabel (ds : List ServiceDescriptor)
    (g : ServiceDescriptor → ServiceLifetime) :
    ∀ (fuel : Nat) (t : TypeId) (cs : Counters),
      (ServiceProvider.ofDescriptors (ds.map (relabel g))).GetService fuel t cs =
        (ServiceProvider.ofDescriptors ds).GetService fuel t cs := by
  have hA : ∀ t, findBucket (ServiceProvider.ofDescriptors (ds.map (relabel g))).services t =
      joinB none (((ds.filter (fun d => d.typeInfo == t)).reverse).map (relabel g)) := by
    intro t
    show findBucket (mkServices (ds.map (relabel g))) t = _
    rw [findBucket_mkServices, filter_relabel, List.map_reverse]
  have hB : ∀ t, findBucket (ServiceProvider.ofDescriptors ds).services t =
      joinB none ((ds.filter (fun d => d.typeInfo == t)).reverse) := by
    intro t
    exact findBucket_mkServices ds t
  intro fuel
  induction fuel with
  | zero =>
    intro t cs
    rw [GetService_zero, GetService_zero, hA, hB]
    cases (ds.filter (fun d => d.typeInfo == t)).reverse with
    | nil => rfl
    | cons d rest => rfl
  | succ f ih =>
    intro t cs
    rw [GetService_succ, GetService_succ, hA, hB]
    cases (ds.filter (fun d => d.typeInfo == t)).reverse with
    | nil => rfl
    | cons d rest =>
      show runFactory _ f (relabel g d).factory cs = runFactory _ f d.factory cs
      cases hf : d.factory with
      | pureVal v => simp [runFactory, relabel, hf]
      | count cid tid => simp [runFactory, relabel, hf]
      | resolve dep =>
        simp only [runFactory, relabel, hf]
        exact ih dep cs

/-! ### Claim theorems -/

/-- C1: when a type is registered exactly twice (with any two factories),
the built provider's bucket for it lists the second (later) registration
first — the build loop iterates in reverse — and `GetService` always runs
the bucket's first entry, so resolution invokes the second registration's
factory and, for constant factories, returns the second's value, never
the first's. -/
theorem override_second_registration_wins (c : ServiceCollection) (t : TypeId)
    (d1 d2 : ServiceDescriptor)
    (hf : c.descriptors.filter (fun d => d.typeInfo == t) = [d1, d2])
    (fuel : Nat) (cs : Counters) :
    findBucket c.BuildServiceProvider.services t = some [d2, d1] ∧
    c.BuildServiceProvider.GetService (fuel + 1) t cs =
      runFactory c.BuildServiceProvider fuel d2.factory cs ∧
    (∀ v1 v2 : Obj, d1.factory = .pureVal v1 → d2.factory = .pureVal v2 →
      c.BuildServiceProvider.GetService (fuel + 1) t cs = some (some v2, cs)) := by
  have hb : findBucket c.BuildServiceProvider.services t = some [d2, d1] := by
    rw [findBucket_build, hf]
    rfl
  refine ⟨hb, ?_, ?_⟩
  · rw [GetService_succ, hb]
  · intro v1 v2 h1 h2
    rw [GetService_succ, hb]
    show runFactory _ fuel d2.factory cs = _
    rw [h2]
    rfl

/-- Witness for C1: type 0 registered first with a factory producing
stamp 1, then with one producing stamp 2; resolution returns stamp 2. -/
theorem override_second_registration_wins_witness :
    (ServiceCollection.mk [⟨0, .pureVal ⟨0, 1⟩, .Singleton⟩, ⟨0, .pureVal ⟨0, 2⟩, .Transient⟩]
        ).descriptors.filter (fun d => d.typeInfo == 0) =
      [⟨0, .pureVal ⟨0, 1⟩, .Singleton⟩, ⟨0, .pureVal ⟨0, 2⟩, .Transient⟩] ∧
    (ServiceCollection.mk [⟨0, .pureVal ⟨0, 1⟩, .Singleton⟩, ⟨0, .pureVal ⟨0, 2⟩, .Transient⟩]
        ).BuildServiceProvider.GetService 1 0 [] = some (some ⟨0, 2⟩, []) :=
  ⟨by decide,
    (override_second_registration_wins
      (ServiceCollection.mk
        [⟨0, .pureVal ⟨0, 1⟩, .Singleton⟩, ⟨0, .pureVal ⟨0, 2⟩, .Transient⟩])
      0 ⟨0, .pureVal ⟨0, 1⟩, .Singleton⟩ ⟨0, .pureVal ⟨0, 2⟩, .Transient⟩
      (by decide) 0 []).2.2 ⟨0, 1⟩ ⟨0, 2⟩ rfl rfl⟩

/-- C2 (code behaviour at the claim's failing input): a type registered
once as `Singleton` with a supplied counting factory is constructed anew
on every resolve — three resolutions bump the counter to 3 and return
three pairwise distinct handles, because `AddSingleton(factory)` stores
the factory unwrapped and `GetService` invokes it unconditionally,
contradicting the claimed count of 1 and identity-equality (and the
source's own `Singleton` doc comment "created once and reused"). -/
theorem singleton_supplied_counting_factory_runs_each_resolve :
    ((ServiceCollection.mk []).AddSingleton 5 (.count 0 5)).BuildServiceProvider.GetService
        1 5 [0] = some (some ⟨5, 1⟩, [1]) ∧
    ((ServiceCollection.mk []).AddSingleton 5 (.count 0 5)).BuildServiceProvider.GetService
        1 5 [1] = some (some ⟨5, 2⟩, [2]) ∧
    ((ServiceCollection.mk []).AddSingleton 5 (.count 0 5)).BuildServiceProvider.GetService
        1 5 [2] = some (some ⟨5, 3⟩, [3]) ∧
    (⟨5, 1⟩ : Obj) ≠ ⟨5, 2⟩ ∧ (⟨5, 1⟩ : Obj) ≠ ⟨5, 3⟩ ∧ (⟨5, 2⟩ : Obj) ≠ ⟨5, 3⟩ := by
  decide

/-- C3: resolving a type with no registration — in particular any type
after building from an empty builder — returns the empty carrier (a
normal value, not an error) and leaves all state untouched, at every
fuel. -/
theorem unregistered_type_resolves_to_empty (c : ServiceCollection) (t : TypeId)
    (h : c.descriptors.filter (fun d => d.typeInfo == t) = [])
    (fuel : Nat) (cs : Counters) :
    c.BuildServiceProvider.GetService fuel t cs = some (none, cs) :=
  getService_of_unregistered c t h fuel cs

/-- Witness for C3: the empty builder's provider resolves type 7 to the
empty carrier. -/
theorem unregistered_type_resolves_to_empty_witness :
    (ServiceCollection.mk []).descriptors.filter (fun d => d.typeInfo == 7) = [] ∧
    (ServiceCollection.mk []).BuildServiceProvider.GetService 0 7 [] = some (none, []) :=
  ⟨by decide, unregistered_type_resolves_to_empty (ServiceCollection.mk []) 7 (by decide) 0 []⟩

/-- C4: a type registered exactly once as `Transient` with a counting
factory is constructed anew on each of three successive resolutions: the
counter advances by one each time (from `n` to `n + 3`) and the three
returned handles carry pairwise distinct stamps. -/
theorem transient_counting_factory_three_resolves (c : ServiceCollection) (t : TypeId)
    (cid : Nat) (tid : TypeId)
    (hf : c.descriptors.filter (fun d => d.typeInfo == t) =
      [⟨t, .count cid tid, .Transient⟩])
    (cs : Counters) (hlen : cid < cs.length) (n : Nat) (hn : cs.getD cid 0 = n)
    (f1 f2 f3 : Nat) :
    c.BuildServiceProvider.GetService (f1 + 1) t cs =
      some (some ⟨tid, n + 1⟩, cs.set cid (n + 1)) ∧
    c.BuildServiceProvider.GetService (f2 + 1) t (cs.set cid (n + 1)) =
      some (some ⟨tid, n + 2⟩, cs.set cid (n + 2)) ∧
    c.BuildServiceProvider.GetService (f3 + 1) t (cs.set cid (n + 2)) =
      some (some ⟨tid, n + 3⟩, cs.set cid (n + 3)) ∧
    (⟨tid, n + 1⟩ : Obj) ≠ ⟨tid, n + 2⟩ ∧ (⟨tid, n + 1⟩ : Obj) ≠ ⟨tid, n + 3⟩ ∧
    (⟨tid, n + 2⟩ : Obj) ≠ ⟨tid, n + 3⟩ := by
  have hb : findBucket c.BuildServiceProvider.services t =
      some [⟨t, .count cid tid, .Transient⟩] := by
    rw [findBucket_build, hf]
    rfl
  have hres : ∀ (f : Nat) (cs' : Counters),
      c.BuildServiceProvider.GetService (f + 1) t cs' =
        some (some ⟨tid, cs'.getD cid 0 + 1⟩, cs'.set cid (cs'.getD cid 0 + 1)) := by
    intro f cs'
    rw [GetService_succ, hb]
    rfl
  have h1 : (cs.set cid (n + 1)).getD cid 0 = n + 1 := getD_set_self cs cid (n + 1) hlen
  have h2 : (cs.set cid (n + 2)).getD cid 0 = n + 2 := getD_set_self cs cid (n + 2) hlen
  refine ⟨?_, ?_, ?_, by simp, by simp, by simp⟩
  · rw [hres, hn]
  · rw [hres, h1, List.set_set]
  · rw [hres, h2, List.set_set]

/-- Witness for C4: type 3 registered once as `Transient` with counting
factory on cell 0; three resolutions from counter state `[0]` produce
stamps 1, 2, 3 and counter 3. -/
theorem transient_counting_factory_three_resolves_witness :
    (((ServiceCollection.mk []).AddTransient 3 (.count 0 3)).descriptors.filter
        (fun d => d.typeInfo == 3) = [⟨3, .count 0 3, .Transient⟩] ∧
      (0 : Nat) < ([0] : Counters).length ∧ ([0] : Counters).getD 0 0 = 0) ∧
    ((ServiceCollection.mk []).AddTransient 3 (.count 0 3)).BuildServiceProvider.GetService
        1 3 [0] = some (some ⟨3, 1⟩, [1]) ∧
    ((ServiceCollection.mk []).AddTransient 3 (.count 0 3)).BuildServiceProvider.GetService
        1 3 [1] = some (some ⟨3, 2⟩, [2]) ∧
    ((ServiceCollection.mk []).AddTransient 3 (.count 0 3)).BuildServiceProvider.GetService
        1 3 [2] = some (some ⟨3, 3⟩, [3]) := by
  refine ⟨⟨by decide, by decide, by decide⟩, ?_⟩
  have h := transient_counting_factory_three_resolves
    ((ServiceCollection.mk []).AddTransient 3 (.count 0 3)) 3 0 3 (by decide)
    [0] (by decide) 0 (by decide) 0 0 0
  refine ⟨?_, ?_, ?_⟩
  · exact h.1
  · simpa using h.2.1
  · simpa using h.2.2.1

/-- C5: the typed accessor runs the erased accessor and then
`std::any_cast<T>`: whenever the erased resolution produces a value, the
typed accessor returns it as `T` exactly when its concrete type is `T`,
and otherwise fails loudly with the `bad_any_cast` contract violation —
it never silently coerces. -/
theorem typed_accessor_any_cast_contract (sp : ServiceProvider) (fuel : Nat) (T : TypeId)
    (cs : Counters) (o : Obj) (cs' : Counters)
    (h : sp.GetService fuel T cs = some (some o, cs')) :
    (o.typeId = T → sp.GetServiceTyped fuel T cs = some (.ok o, cs')) ∧
    (o.typeId ≠ T → sp.GetServiceTyped fuel T cs = some (.error (), cs')) := by
  constructor <;> intro ht <;>
    simp [ServiceProvider.GetServiceTyped, h, any_cast, ht]

/-- Witness for C5: a registration for type 1 whose factory produces a
value of concrete type 2 makes the typed accessor fail loudly, and one
producing concrete type 1 makes it return the value. -/
theorem typed_accessor_any_cast_contract_witness :
    ((ServiceCollection.mk []).AddSingleton 1 (.pureVal ⟨2, 0⟩)).BuildServiceProvider.GetService
        1 1 [] = some (some ⟨2, 0⟩, []) ∧
    ((ServiceCollection.mk []).AddSingleton 1 (.pureVal ⟨2, 0⟩)).BuildServiceProvider.GetServiceTyped
        1 1 [] = some (.error (), []) ∧
    ((ServiceCollection.mk []).AddSingleton 1 (.pureVal ⟨1, 9⟩)).BuildServiceProvider.GetService
        1 1 [] = some (some ⟨1, 9⟩, []) ∧
    ((ServiceCollection.mk []).AddSingleton 1 (.pureVal ⟨1, 9⟩)).BuildServiceProvider.GetServiceTyped
        1 1 [] = some (.ok ⟨1, 9⟩, []) :=
  ⟨by rfl,
    (typed_accessor_any_cast_contract _ 1 1 [] ⟨2, 0⟩ [] (by rfl)).2 (by decide),
    by rfl,
    (typed_accessor_any_cast_contract _ 1 1 [] ⟨1, 9⟩ [] (by rfl)).1 rfl⟩

/-- C6: a provider built at some point is a snapshot: any further
sequence of operations — builder mutations included — leaves the
already-built provider (hence its registry mapping and every bucket's
order) unchanged, and resolving through it afterwards gives exactly what
the snapshot gives. -/
theorem built_resolver_snapshot_frame (w : World) (i : Nat) (sp : ServiceProvider)
    (ops : List Op) (h : w.built[i]? = some sp) :
    (runOps w ops).built[i]? = some sp ∧
    ∀ (sp' : ServiceProvider), (runOps w ops).built[i]? = some sp' →
      ∀ (fuel : Nat) (t : TypeId) (cs : Counters),
        sp'.GetService fuel t cs = sp.GetService fuel t cs := by
  have hframe := runOps_built_frame ops w i sp h
  refine ⟨hframe, ?_⟩
  intro sp' h' fuel t cs
  rw [hframe] at h'
  cases h'
  rfl

/-- Witness for C6: build a provider for type 1, then append a new
registration for type 1 to the builder and build again; the first
provider is still the one recorded at index 0. -/
theorem built_resolver_snapshot_frame_witness :
    (World.mk (ServiceCollection.mk [⟨1, .pureVal ⟨1, 4⟩, .Singleton⟩])
        [ServiceProvider.ofDescriptors [⟨1, .pureVal ⟨1, 4⟩, .Singleton⟩]] []).built[0]? =
      some (ServiceProvider.ofDescriptors [⟨1, .pureVal ⟨1, 4⟩, .Singleton⟩]) ∧
    (runOps
        (World.mk (ServiceCollection.mk [⟨1, .pureVal ⟨1, 4⟩, .Singleton⟩])
          [ServiceProvider.ofDescriptors [⟨1, .pureVal ⟨1, 4⟩, .Singleton⟩]] [])
        [.add ⟨1, .pureVal ⟨1, 9⟩, .Transient⟩, .build]).built[0]? =
      some (ServiceProvider.ofDescriptors [⟨1, .pureVal ⟨1, 4⟩, .Singleton⟩]) :=
  ⟨by decide,
    (built_resolver_snapshot_frame
      (World.mk (ServiceCollection.mk [⟨1, .pureVal ⟨1, 4⟩, .Singleton⟩])
        [ServiceProvider.ofDescriptors [⟨1, .pureVal ⟨1, 4⟩, .Singleton⟩]] [])
      0 (ServiceProvider.ofDescriptors [⟨1, .pureVal ⟨1, 4⟩, .Singleton⟩])
      [.add ⟨1, .pureVal ⟨1, 9⟩, .Transient⟩, .build] (by decide)).1⟩

/-- C7: resolution invokes the winning registration's factory passing
the resolver itself, so a factory that resolves another type yields
exactly what a direct resolution of that second type through the same
resolver yields — the recursively resolved value obeys the second type's
own resolution behaviour. -/
theorem factory_receives_resolver_recursive (sp : ServiceProvider) (t dep : TypeId)
    (d : ServiceDescriptor) (rest : List ServiceDescriptor)
    (hb : findBucket sp.services t = some (d :: rest))
    (hfac : d.factory = .resolve dep) (fuel : Nat) (cs : Counters) :
    sp.GetService (fuel + 1) t cs = sp.GetService fuel dep cs := by
  rw [GetService_succ, hb]
  show runFactory sp fuel d.factory cs = _
  rw [hfac]
  rfl

/-- Witness for C7: type 2's factory resolves type 1 (a transient
counting registration); resolving 2 equals resolving 1 directly, succeeds,
and two successive resolutions of 2 yield fresh stamps, reflecting the
dependency's per-call construction. -/
theorem factory_receives_resolver_recursive_witness :
    findBucket (((ServiceCollection.mk []).AddTransient 1 (.count 0 1)).AddTransient 2
        (.resolve 1)).BuildServiceProvider.services 2 = some [⟨2, .resolve 1, .Transient⟩] ∧
    (((ServiceCollection.mk []).AddTransient 1 (.count 0 1)).AddTransient 2
        (.resolve 1)).BuildServiceProvider.GetService 2 2 [0] =
      (((ServiceCollection.mk []).AddTransient 1 (.count 0 1)).AddTransient 2
        (.resolve 1)).BuildServiceProvider.GetService 1 1 [0] ∧
    (((ServiceCollection.mk []).AddTransient 1 (.count 0 1)).AddTransient 2
        (.resolve 1)).BuildServiceProvider.GetService 2 2 [0] = some (some ⟨1, 1⟩, [1]) ∧
    (((ServiceCollection.mk []).AddTransient 1 (.count 0 1)).AddTransient 2
        (.resolve 1)).BuildServiceProvider.GetService 2 2 [1] = some (some ⟨1, 2⟩, [2]) :=
  ⟨by decide,
    factory_receives_resolver_recursive
      (((ServiceCollection.mk []).AddTransient 1 (.count 0 1)).AddTransient 2
        (.resolve 1)).BuildServiceProvider
      2 1 ⟨2, .resolve 1, .Transient⟩ [] (by decide) rfl 1 [0],
    by decide, by decide⟩

/-- C8: in a built provider every present type maps to a nonempty bucket
whose contents and order are exactly the reversed filter of the
registration list fixed at build time, and no subsequent operation of any
kind ever changes an already-built provider. -/
theorem resolver_registry_nonempty_immutable (c : ServiceCollection) :
    (∀ (t : TypeId) (b : List ServiceDescriptor),
        findBucket c.BuildServiceProvider.services t = some b →
          b ≠ [] ∧ b = (c.descriptors.filter (fun d => d.typeInfo == t)).reverse) ∧
    (∀ (w : World) (i : Nat) (ops : List Op),
        w.built[i]? = some c.BuildServiceProvider →
          (runOps w ops).built[i]? = some c.BuildServiceProvider) := by
  constructor
  · intro t b hb
    rw [findBucket_build] at hb
    cases hrev : (c.descriptors.filter (fun d => d.typeInfo == t)).reverse with
    | nil =>
      rw [hrev] at hb
      exact Option.noConfusion hb
    | cons d rest =>
      rw [hrev] at hb
      have hb' : some (d :: rest) = some b := hb
      cases hb'
      exact ⟨by simp, rfl⟩
  · intro w i ops hw
    exact runOps_built_frame ops w i _ hw

/-- Witness for C8: type 4's bucket in a one-registration provider is the
nonempty reversed filter, and the provider survives a later add and
resolve untouched. -/
theorem resolver_registry_nonempty_immutable_witness :
    (([⟨4, .pureVal ⟨4, 0⟩, .Singleton⟩] : List ServiceDescriptor) ≠ [] ∧
      ([⟨4, .pureVal ⟨4, 0⟩, .Singleton⟩] : List ServiceDescriptor) =
        ((ServiceCollection.mk [⟨4, .pureVal ⟨4, 0⟩, .Singleton⟩]).descriptors.filter
          (fun d => d.typeInfo == 4)).reverse) ∧
    (runOps
        (World.mk (ServiceCollection.mk [⟨4, .pureVal ⟨4, 0⟩, .Singleton⟩])
          [(ServiceCollection.mk [⟨4, .pureVal ⟨4, 0⟩, .Singleton⟩]).BuildServiceProvider] [])
        [.add ⟨4, .pureVal ⟨4, 7⟩, .Transient⟩, .resolve 0 1 4]).built[0]? =
      some (ServiceCollection.mk [⟨4, .pureVal ⟨4, 0⟩, .Singleton⟩]).BuildServiceProvider :=
  ⟨(resolver_registry_nonempty_immutable
      (ServiceCollection.mk [⟨4, .pureVal ⟨4, 0⟩, .Singleton⟩])).1
      4 [⟨4, .pureVal ⟨4, 0⟩, .Singleton⟩] (by decide),
    (resolver_registry_nonempty_immutable
      (ServiceCollection.mk [⟨4, .pureVal ⟨4, 0⟩, .Singleton⟩])).2
      (World.mk (ServiceCollection.mk [⟨4, .pureVal ⟨4, 0⟩, .Singleton⟩])
        [(ServiceCollection.mk [⟨4, .pureVal ⟨4, 0⟩, .Singleton⟩]).BuildServiceProvider] [])
      0 [.add ⟨4, .pureVal ⟨4, 7⟩, .Transient⟩, .resolve 0 1 4] (by decide)⟩

/-- C9: for an unregistered type the erased accessor yields the empty
carrier, and the typed accessor's `std::any_cast<T>` on that empty
carrier raises the same `bad_any_cast` contract violation used for a type
mismatch — at the typed interface absence is not a soft, checkable
outcome. -/
theorem typed_accessor_unregistered_bad_cast (c : ServiceCollection) (T : TypeId)
    (h : c.descriptors.filter (fun d => d.typeInfo == T) = [])
    (fuel : Nat) (cs : Counters) :
    c.BuildServiceProvider.GetServiceTyped fuel T cs = some (.error (), cs) := by
  unfold ServiceProvider.GetServiceTyped
  rw [getService_of_unregistered c T h fuel cs]
  rfl

/-- Witness for C9: the empty builder's provider, asked for type 2
through the typed accessor, raises the contract violation. -/
theorem typed_accessor_unregistered_bad_cast_witness :
    (ServiceCollection.mk []).descriptors.filter (fun d => d.typeInfo == 2) = [] ∧
    (ServiceCollection.mk []).BuildServiceProvider.GetServiceTyped 1 2 [] =
      some (.error (), []) :=
  ⟨by decide, typed_accessor_unregistered_bad_cast (ServiceCollection.mk []) 2 (by decide) 1 []⟩

/-- C10: the resolve path never reads the lifetime tag: relabelling every
registration's lifetime arbitrarily — in particular replacing a
`Singleton` descriptor's lifetime by `Transient`, factory unchanged —
leaves `GetService` with the same factory invocation and the same result
on every call. -/
theorem resolution_ignores_lifetime (c : ServiceCollection)
    (g : ServiceDescriptor → ServiceLifetime) (fuel : Nat) (t : TypeId) (cs : Counters) :
    (ServiceCollection.mk (c.descriptors.map (relabel g))).BuildServiceProvider.GetService
        fuel t cs =
      c.BuildServiceProvider.GetService fuel t cs :=
  GetService_relabel c.descriptors g fuel t cs

end DependencyInjection
